import Mathlib

/-!
Verification of the PAKE2 implementation (schollz/pake, file pake.go).

The Go source is shallowly embedded as executable Lean definitions:

* `big.Int` values become `Int` (always non-negative in practice); a `*big.Int`
  field that can be `nil` becomes `Option Int`.
* byte slices become `List Nat`; a `nil` byte slice and the empty slice are
  indistinguishable to every operation the code performs on them, so both are
  modelled as `[]`.  `K` keeps `Option` because `SessionKey`/`HaveSessionKey`
  test `p.K == nil`.
* The elliptic-curve objects (`crypto/elliptic`, `tscholl2/siec`, the
  `Edwards25519Curve` wrapper around `filippo.io/edwards25519`) are external
  collaborators behind the `EllipticCurve` interface; they are modelled as a
  `CurveImpl` record of operations supplied as a parameter (`CurveLib`).  The
  Go type test `p.curve.(*Edwards25519Curve)` is modelled by the `isEd25519`
  flag.  `Params().P` of the library curves is the `P` field of the record.
* `crypto/rand.Read` into a freshly allocated buffer is modelled by a stream
  parameter `rand : Nat → List Nat`, normalised by `fillRand` so that the
  buffer length is always the allocated one (as `make([]byte, n)` guarantees).
* `crypto/sha256` is an external collaborator, modelled as a parameter
  `sha : List Nat → List Nat`; the transcript fed to it is built exactly as the
  sequence of `Write` calls in the source.
* `encoding/json`: `json.Marshal(p.Public())` produces an association list of
  the exported struct fields in declaration order; every exported field that
  `Public()` leaves at its zero value marshals as `null`.  `json.Unmarshal`
  of a well-formed message is `unmarshalWire`; a failed parse and the JSON
  literal null (which leaves `q == nil`) are the other two constructors of
  `Msg`.
* A Go run-time panic (nil-pointer dereference of a `*big.Int` handed to a
  curve operation, or of a nil receiver/decoded value) is the `crash` result.

Go error values are modelled by the enumeration `PakeError`; the mapping to
the literal messages of the source is noted at each constructor.
-/

/-- Big-endian minimal-length encoding of a natural number: the model of
`(*big.Int).Bytes()` (which never emits leading zero bytes and encodes 0 as
the empty slice).  Structural recursion on a fuel argument so that the kernel
can evaluate it; 200 bytes of fuel covers every integer below `256^200`, far
beyond every field element that occurs (at most 66 bytes for P-521). -/
def natBytesAux (fuel : Nat) (n : Nat) : List Nat :=
  match fuel with
  | 0 => []
  | fuel + 1 => if n = 0 then [] else natBytesAux fuel (n / 256) ++ [n % 256]

/-- `(*big.Int).Bytes()` for a non-negative value. -/
def natBytes (n : Nat) : List Nat := natBytesAux 200 n

/-- `(*big.Int).Bytes()` — returns the bytes of the absolute value. -/
def intBytes (n : Int) : List Nat := natBytes n.natAbs

/-- Model of `make([]byte, n)` followed by `rand.Read`: whatever the stream
delivers, the buffer handed on has length exactly `n`. -/
def fillRand (rand : Nat → List Nat) (n : Nat) : List Nat :=
  (rand n ++ List.replicate n 0).take n

/-- Big-endian interpretation of a byte string as a natural number (used only
by the concrete test instantiation of a curve). -/
def beNat (bs : List Nat) : Nat := bs.foldl (fun a b => a * 256 + b) 0

/-- The error values produced by the source, as kinds:
`unknownCurve` = errors.New("no such curve"),
`badGenerator` = fmt.Errorf("Ux/Uy not on curve") / ("Vx/Vy not on curve"),
`notInitialized` = fmt.Errorf("pake is not initialized"),
`malformedMessage` = the error returned by json.Unmarshal,
`roleCollision` = errors.New("can't have its own role"),
`pointNotOnCurve` = errors.New("X values not on curve") / ("Y values not on curve"),
`noSessionKey` = errors.New("session key not generated"). -/
inductive PakeError where
  | unknownCurve
  | badGenerator
  | notInitialized
  | malformedMessage
  | roleCollision
  | pointNotOnCurve
  | noSessionKey
  deriving Repr, DecidableEq

/-- The `EllipticCurve` interface of pake.go, together with the data the
protocol extracts from the concrete curve object: `isEd25519` models the
dynamic type test `p.curve.(*Edwards25519Curve)` (and `Subtract` is the extra
method of that type, only ever called when the test succeeds), `P` models
`Params().P` of the library curve. -/
structure CurveImpl where
  Add : Int × Int → Int × Int → Int × Int
  ScalarBaseMult : List Nat → Int × Int
  ScalarMult : Int × Int → List Nat → Int × Int
  IsOnCurve : Int × Int → Bool
  Subtract : Int × Int → Int × Int → Int × Int
  isEd25519 : Bool
  P : Int

/-- The five concrete curve objects the registry can construct:
`elliptic.P521()`, `elliptic.P256()`, `elliptic.P384()`, `siec.SIEC255()` and
`&Edwards25519Curve{}`.  They live in external libraries (or wrap one), so the
embedding takes them as a parameter. -/
structure CurveLib where
  p521 : CurveImpl
  p256 : CurveImpl
  p384 : CurveImpl
  siec : CurveImpl
  ed25519 : CurveImpl

/-- `AvailableCurves()` of pake.go. -/
def AvailableCurves : List String := ["p521", "p256", "p384", "siec", "ed25519"]

/-- Registry literals of initCurve (pake.go lines 165-218), in decimal as in
the source.  `Ux`/`Vx` are shared between p256, p384 and p521. -/
def wUx : Int := 793136080485469241208656611513609866400481671852

def wVx : Int := 1086685267857089638167386722555472967068468061489

def p521Uy : Int := 4032821203812196944795502391345776760852202059010382256134592838722123385325802540879231526503456158741518531456199762365161310489884151533417829496019094620

def p521Vy : Int := 5010916268086655347194655708160715195931018676225831839835602465999566066450501167246678404591906342753230577187831311039273858772817427392089150297708931207

def p256Uy : Int := 59748757929350367369315811184980635230185250460108398961713395032485227207304

def p256Vy : Int := 9157340230202296554417312816309453883742349874205386245733062928888341584123

def p384Uy : Int := 7854890799382392388170852325516804266858248936799429260403044177981810983054351714387874260245230531084533936948596

def p384Vy : Int := 21898206562669911998235297167979083576432197282633635629145270958059347586763418294901448537278960988843108277491616

def siecUx : Int := 793136080485469241208656611513609866400481671853

def siecUy : Int := 18458907634222644275952014841865282643645472623913459400556233196838128612339

def siecVy : Int := 19593504966619549205903364028255899745298716108914514072669075231742699650911

def edUx : Int := 41821174510521985817056358996007359290163947216650231187782646151092828043509

def edVx : Int := 1456941786990260824647297143563623381366314063537015067473110401627488371271

/-- The literal `2^255 - 19` that initCurve assigns to `P` for "ed25519". -/
def edP : Int := 57896044618658097711785492504343953926634992332820282019728792003956564819949

/-- The generator sanity check at the end of initCurve: `IsOnCurve(Ux, Uy)`
and `IsOnCurve(Vx, Vy)` must both hold, otherwise the error is
`badGenerator` (the source builds the message for whichever check failed
last; both map to the same kind). -/
def checkRegistryEntry (c : CurveImpl) (P ux uy vx vy : Int) :
    Except PakeError (CurveImpl × Int × Int × Int × Int × Int) :=
  if ¬ c.IsOnCurve (ux, uy) then .error .badGenerator
  else if ¬ c.IsOnCurve (vx, vy) then .error .badGenerator
  else .ok (c, P, ux, uy, vx, vy)

/-- `initCurve` of pake.go (lines 165-218): name dispatch, hard-coded
generators, field prime, and the on-curve check of the generators. -/
def initCurve (lib : CurveLib) (curve : String) :
    Except PakeError (CurveImpl × Int × Int × Int × Int × Int) :=
  match curve with
  | "p521" => checkRegistryEntry lib.p521 lib.p521.P wUx p521Uy wVx p521Vy
  | "p256" => checkRegistryEntry lib.p256 lib.p256.P wUx p256Uy wVx p256Vy
  | "p384" => checkRegistryEntry lib.p384 lib.p384.P wUx p384Uy wVx p384Vy
  | "siec" => checkRegistryEntry lib.siec lib.siec.P siecUx siecUy wVx siecVy
  | "ed25519" => checkRegistryEntry lib.ed25519 edP edUx 0 edVx 0
  | _ => .error .unknownCurve

/-- The `Pake` struct.  Fields that `InitCurve` always sets for a session
(`curve`, `P`, `U`, `V`, `Pw`) are plain values; the point fields that remain
`nil` until a protocol step fills them are `Option`.  `Aα` is a byte slice
(`nil` slice = `[]`). -/
structure Pake where
  Role : Int
  Uᵤ : Int
  Uᵥ : Int
  Vᵤ : Int
  Vᵥ : Int
  Xᵤ : Option Int
  Xᵥ : Option Int
  Yᵤ : Option Int
  Yᵥ : Option Int
  curve : CurveImpl
  P : Int
  Pw : List Nat
  Vpwᵤ : Option Int
  Vpwᵥ : Option Int
  Upwᵤ : Option Int
  Upwᵥ : Option Int
  Aα : List Nat
  Aαᵤ : Option Int
  Aαᵥ : Option Int
  Zᵤ : Option Int
  Zᵥ : Option Int
  K : Option (List Nat)

/-- `InitCurve` (pake.go lines 224-249).  `rand` is the CSPRNG stream. -/
def InitCurve (lib : CurveLib) (rand : Nat → List Nat) (pw : List Nat) (role : Int)
    (curve : String) : Except PakeError Pake :=
  match initCurve lib curve with
  | .error e => .error e
  | .ok (c, P, ux, uy, vx, vy) =>
    let p0 : Pake :=
      {
        Role := 0, Uᵤ := ux, Uᵥ := uy, Vᵤ := vx, Vᵥ := vy,
        Xᵤ := none, Xᵥ := none, Yᵤ := none, Yᵥ := none,
        curve := c, P := P, Pw := pw,
        Vpwᵤ := none, Vpwᵥ := none, Upwᵤ := none, Upwᵥ := none,
        Aα := [], Aαᵤ := none, Aαᵥ := none, Zᵤ := none, Zᵥ := none, K := none }
    if role = 1 then
      .ok { p0 with Role := 1 }
    else
      let vpw := c.ScalarMult (vx, vy) pw
      let upw := c.ScalarMult (ux, uy) pw
      let α := fillRand rand 32
      let αG := c.ScalarBaseMult α
      let X := c.Add upw αG
      .ok { p0 with
            Role := 0,
            Vpwᵤ := some vpw.1, Vpwᵥ := some vpw.2,
            Upwᵤ := some upw.1, Upwᵥ := some upw.2,
            Aα := α, Aαᵤ := some αG.1, Aαᵥ := some αG.2,
            Xᵤ := some X.1, Xᵥ := some X.2 }

/-- A marshalled JSON value of the wire encoding: every exported field of the
struct marshals either to a decimal number (`*big.Int`, `int`) or to `null`
(a `nil` pointer or `nil` byte slice). -/
inductive JVal where
  | null
  | num (n : Int)
  deriving Repr, DecidableEq

/-- Encoding of an optional big integer field. -/
def optJ : Option Int → JVal
  | none => .null
  | some n => .num n

/-- `Bytes()` = `json.Marshal(p.Public())` (pake.go lines 141-154, 251-262):
`Public()` copies the nine public fields into a fresh `Pake` and leaves every
other field at its zero value, so the exported private fields (`P`, `Pw`,
`Vpwᵤᵥ`, `Upwᵤᵥ`, `Aα`, `Aαᵤᵥ`, `Zᵤᵥ`, `K`) marshal as `null`; the unexported
`curve` is skipped by encoding/json.  The output is the association list of
exported fields in struct declaration order. -/
def Pake.Bytes (p : Pake) : List (String × JVal) :=
  [("Role", .num p.Role),
   ("Uᵤ", .num p.Uᵤ), ("Uᵥ", .num p.Uᵥ),
   ("Vᵤ", .num p.Vᵤ), ("Vᵥ", .num p.Vᵥ),
   ("Xᵤ", optJ p.Xᵤ), ("Xᵥ", optJ p.Xᵥ),
   ("Yᵤ", optJ p.Yᵤ), ("Yᵥ", optJ p.Yᵥ),
   ("P", .null), ("Pw", .null),
   ("Vpwᵤ", .null), ("Vpwᵥ", .null),
   ("Upwᵤ", .null), ("Upwᵥ", .null),
   ("Aα", .null), ("Aαᵤ", .null), ("Aαᵥ", .null),
   ("Zᵤ", .null), ("Zᵥ", .null),
   ("K", .null)]

/-- The projection of a decoded peer message that `Update` reads: `q.Role`,
`q.Xᵤ`, `q.Xᵥ`, `q.Yᵤ`, `q.Yᵥ`.  A key that is absent or null decodes to the
zero value (`0` for the int, `nil` for the pointers). -/
structure Wire where
  Role : Int
  Xᵤ : Option Int
  Xᵥ : Option Int
  Yᵤ : Option Int
  Yᵥ : Option Int
  deriving Repr, DecidableEq

/-- Read one `*big.Int` field out of a marshalled message. -/
def lookupInt (m : List (String × JVal)) (k : String) : Option Int :=
  match m.lookup k with
  | some (.num n) => some n
  | _ => none

/-- `json.Unmarshal` of a well-formed message, restricted to the fields
`Update` uses. -/
def unmarshalWire (m : List (String × JVal)) : Wire :=
  {
    Role := (lookupInt m "Role").getD 0,
    Xᵤ := lookupInt m "Xᵤ", Xᵥ := lookupInt m "Xᵥ",
    Yᵤ := lookupInt m "Yᵤ", Yᵥ := lookupInt m "Yᵥ" }

/-- The three outcomes of `json.Unmarshal(qBytes, &q)`: a parse error, the
JSON literal null (which leaves `q == nil`, so that the following `q.Role`
dereferences a nil pointer), or a decoded message. -/
inductive Msg where
  | malformed
  | nullMsg
  | decoded (q : Wire)

/-- Result of `Update`: normal return, error return (carrying the session
state as left by the call), error return on a nil receiver, or a Go runtime
panic. -/
inductive UpdateResult where
  | ok (p : Pake)
  | err (e : PakeError) (p : Pake)
  | errNil (e : PakeError)
  | crash

/-- The SHA-256 transcript `pw ‖ Xᵤ ‖ Xᵥ ‖ Yᵤ ‖ Yᵥ ‖ Zᵤ ‖ Zᵥ` exactly as the
sequence of `Write` calls in Update builds it, each integer contributing its
`(*big.Int).Bytes()` encoding. -/
def hashInput (pw : List Nat) (xu xv yu yv zu zv : Int) : List Nat :=
  pw ++ intBytes xu ++ intBytes xv ++ intBytes yu ++ intBytes yv
     ++ intBytes zu ++ intBytes zv

/-- `Update` (pake.go lines 267-355) on a non-nil receiver.  `m` is the
outcome of unmarshalling the peer bytes, `rand` the CSPRNG stream for the
responder's fresh `α`, `sha` the SHA-256 function.  Passing a `nil`
`*big.Int` coordinate to any curve implementation dereferences it (the
repository's own `Edwards25519Curve.IsOnCurve` calls `x.Bytes()`; the library
implementations call `x.Sign()` first), so a missing required coordinate is a
`crash`. -/
def Pake.Update (p : Pake) (m : Msg) (rand : Nat → List Nat)
    (sha : List Nat → List Nat) : UpdateResult :=
  match m with
  | .malformed => .err .malformedMessage p
  | .nullMsg => .crash
  | .decoded q =>
    if p.Role = q.Role then .err .roleCollision p
    else if p.Role = 1 then
      let p1 := { p with Xᵤ := q.Xᵤ, Xᵥ := q.Xᵥ }
      match q.Xᵤ, q.Xᵥ with
      | some xu, some xv =>
        if ¬ p.curve.IsOnCurve (xu, xv) then .err .pointNotOnCurve p1
        else
          let vpw := p.curve.ScalarMult (p.Vᵤ, p.Vᵥ) p.Pw
          let upw := p.curve.ScalarMult (p.Uᵤ, p.Uᵥ) p.Pw
          let α := fillRand rand 32
          let αG := p.curve.ScalarBaseMult α
          let Y := p.curve.Add vpw αG
          let Z0 := if p.curve.isEd25519 then p.curve.Subtract (xu, xv) upw
                    else p.curve.Add (xu, xv) (upw.1, (-upw.2) % p.P)
          let Z := p.curve.ScalarMult Z0 α
          let K := sha (hashInput p.Pw xu xv Y.1 Y.2 Z.1 Z.2)
          .ok { p1 with
                Vpwᵤ := some vpw.1, Vpwᵥ := some vpw.2,
                Upwᵤ := some upw.1, Upwᵥ := some upw.2,
                Aα := α, Aαᵤ := some αG.1, Aαᵥ := some αG.2,
                Yᵤ := some Y.1, Yᵥ := some Y.2,
                Zᵤ := some Z.1, Zᵥ := some Z.2, K := some K }
      | _, _ => .crash
    else
      let p1 := { p with Yᵤ := q.Yᵤ, Yᵥ := q.Yᵥ }
      match q.Yᵤ, q.Yᵥ with
      | some yu, some yv =>
        if ¬ p.curve.IsOnCurve (yu, yv) then .err .pointNotOnCurve p1
        else
          match p.Vpwᵤ, p.Vpwᵥ, p.Xᵤ, p.Xᵥ with
          | some vpwu, some vpwv, some xu, some xv =>
            let Z0 := if p.curve.isEd25519 then
                        p.curve.Subtract (yu, yv) (vpwu, vpwv)
                      else p.curve.Add (yu, yv) (vpwu, (-vpwv) % p.P)
            let Z := p.curve.ScalarMult Z0 p.Aα
            let K := sha (hashInput p.Pw xu xv yu yv Z.1 Z.2)
            .ok { p1 with Zᵤ := some Z.1, Zᵥ := some Z.2, K := some K }
          | _, _, _, _ => .crash
      | _, _ => .crash

/-- `Update` including the nil-receiver check at its head. -/
def UpdateO : Option Pake → Msg → (Nat → List Nat) → (List Nat → List Nat) →
    UpdateResult
  | none, _, _, _ => .errNil .notInitialized
  | some p, m, rand, sha => p.Update m rand sha

/-- Result of `SessionKey`. -/
inductive SessionKeyResult where
  | ok (k : List Nat)
  | err (e : PakeError)
  | crash
  deriving Repr, DecidableEq

/-- `SessionKey` (pake.go lines 360-369).  On a nil receiver the code sets the
"pake is not initialized" error but then unconditionally evaluates `p.K`,
dereferencing the nil receiver: a run-time panic, not an error return (the
repository's own test notes that this "currently panics"). -/
def SessionKey : Option Pake → SessionKeyResult
  | none => .crash
  | some p =>
    match p.K with
    | none => .err .noSessionKey
    | some k => .ok k

/-- `HaveSessionKey` (pake.go lines 372-377). -/
def HaveSessionKey : Option Pake → Bool
  | none => false
  | some p => p.K.isSome

/-! ### Models of the external curve implementations (for the registry facts)

The curve arithmetic lives in `crypto/elliptic`, `tscholl2/siec` and
`filippo.io/edwards25519`, outside this repository.  The membership tests of
those libraries are standard mathematics, modelled here concretely so that the
on-curve facts about the hard-coded registry generators can be settled. -/

/-- Field prime of NIST P-256 (`2^256 - 2^224 + 2^192 + 2^96 - 1`). -/
def p256P : Nat := 115792089210356248762697446949407573530086143415290314195533631308867097853951

/-- Weierstrass constant b of NIST P-256. -/
def p256B : Nat := 41058363725152142129326129780047268409114441015993725554835256314039467401291

/-- Field prime of NIST P-384 (`2^384 - 2^128 - 2^96 + 2^32 - 1`). -/
def p384P : Nat := 39402006196394479212279040100143613805079739270465446667948293404245721771496870329047266088258938001861606973112319

/-- Weierstrass constant b of NIST P-384. -/
def p384B : Nat := 27580193559959705877849011840389048093056905856361568521428707301988689241309860865136260764883745107765439761230575

/-- Field prime of NIST P-521 (`2^521 - 1`). -/
def p521P : Nat := 6864797660130609714981900799081393217269435300143305409394463459185543183397656052122559640661454554977296311391480858037121987999716643812574028291115057151

/-- Weierstrass constant b of NIST P-521. -/
def p521B : Nat := 1093849038073734274511112390766805569936207598951683748994586394495953116150735016013708737573759623248592132296706313309438452531591012912142327488478985984

/-- Modelled from the external library crypto/elliptic: a NIST curve is the
short-Weierstrass curve y² = x³ − 3x + b over the prime field of size pr, and
IsOnCurve accepts exactly the points with canonical coordinates satisfying the
equation. -/
def weierstrassOnCurve (pr b x y : Nat) : Prop :=
  x < pr ∧ y < pr ∧ (y * y) % pr = (x * x * x + (pr - 3) * x + b) % pr

/-- Field prime of SIEC255 (external library tscholl2/siec). -/
def siecP : Nat := 28948022309329048855892746252183396360603931420023084536990047309120118726721

/-- Modelled from the external library tscholl2/siec: SIEC255 is the curve
y² = x³ + 19 over the prime field of size siecP. -/
def siecOnCurve (x y : Nat) : Prop :=
  x < siecP ∧ y < siecP ∧ (y * y) % siecP = (x * x * x + 19) % siecP

/-- Field prime of edwards25519, `2^255 - 19`. -/
def edPrime : Nat := 57896044618658097711785492504343953926634992332820282019728792003956564819949

/-- The Edwards constant d of edwards25519. -/
def edD : Nat := 37095705934669439343138083508754565189542113879843219016388785533085940283555

/-- Modular exponentiation by repeated squaring, with enough fuel for any
exponent below `2^300`, so that the kernel can evaluate it. -/
def powModAux (m : Nat) : Nat → Nat → Nat → Nat
  | 0, _, _ => 1 % m
  | fuel + 1, b, e =>
    if e = 0 then 1 % m
    else
      let r := powModAux m fuel (b * b % m) (e / 2)
      if e % 2 = 1 then r * b % m else r

/-- `b ^ e mod m`. -/
def powMod (m b e : Nat) : Nat := powModAux m 300 (b % m) e

/-- The integer whose 32-byte little-endian encoding is the 32-byte big-endian
encoding of `n`: the repository stores the compressed Edwards point encoding
as a big-endian `big.Int` and hands its bytes to the library, which reads them
little-endian. -/
def byteRev32 (n : Nat) : Nat :=
  ((List.range 32).map (fun i => n / 256 ^ i % 256 * 256 ^ (31 - i))).sum

/-- Modelled from the repository's `Edwards25519Curve.IsOnCurve` composed with
the external filippo.io/edwards25519 `Point.SetBytes` decompression: bit 255
of the little-endian encoding is the sign of the x-coordinate, the rest is the
y-coordinate, which must be canonical; the encoding is a valid point iff
x² = (y²−1)/(d·y²+1) has a root, a zero root only with sign bit 0. -/
def edPointValid (n : Nat) : Prop :=
  let le := byteRev32 n
  let sign := le / 2 ^ 255
  let y := le % 2 ^ 255
  y < edPrime ∧
  ((((y * y + (edPrime - 1)) % edPrime) * powMod edPrime ((edD * (y * y % edPrime) + 1) % edPrime) (edPrime - 2)) % edPrime = 0 →
      sign = 0) ∧
  ((((y * y + (edPrime - 1)) % edPrime) * powMod edPrime ((edD * (y * y % edPrime) + 1) % edPrime) (edPrime - 2)) % edPrime ≠ 0 →
      powMod edPrime ((((y * y + (edPrime - 1)) % edPrime) * powMod edPrime ((edD * (y * y % edPrime) + 1) % edPrime) (edPrime - 2)) % edPrime) ((edPrime - 1) / 2) = 1)

instance (pr b x y : Nat) : Decidable (weierstrassOnCurve pr b x y) := by
  unfold weierstrassOnCurve; infer_instance

instance (x y : Nat) : Decidable (siecOnCurve x y) := by
  unfold siecOnCurve; infer_instance

instance (n : Nat) : Decidable (edPointValid n) := by
  unfold edPointValid; infer_instance

/-- The on-curve facts about the registry generators that `initCurve` asks the
curve objects for, collected as a hypothesis on the supplied library. -/
def registryAccepts (lib : CurveLib) : Prop :=
  lib.p521.IsOnCurve (wUx, p521Uy) = true ∧ lib.p521.IsOnCurve (wVx, p521Vy) = true ∧
  lib.p256.IsOnCurve (wUx, p256Uy) = true ∧ lib.p256.IsOnCurve (wVx, p256Vy) = true ∧
  lib.p384.IsOnCurve (wUx, p384Uy) = true ∧ lib.p384.IsOnCurve (wVx, p384Vy) = true ∧
  lib.siec.IsOnCurve (siecUx, siecUy) = true ∧ lib.siec.IsOnCurve (wVx, siecVy) = true ∧
  lib.ed25519.IsOnCurve (edUx, 0) = true ∧ lib.ed25519.IsOnCurve (edVx, 0) = true

/-! ### The curve contract used by the agreement proof -/

/-- The group-theoretic contract of a curve implementation that the PAKE2
exchange relies on, stated operationally on the interface operations:
adding the coordinate-negation (reduced mod P) of the masking term recovers
the ephemeral point on a Weierstrass curve, `Subtract` does the same on
Edwards, scalar multiplication of base-point multiples commutes, and sums of
curve points pass the membership test.  Every concrete curve satisfies this
contract on the points occurring in honest protocol runs. -/
structure CurveGood (c : CurveImpl) (P : Int) : Prop where
  addSub : c.isEd25519 = false → ∀ W k j,
    c.Add (c.Add (c.ScalarMult W k) (c.ScalarBaseMult j))
        ((c.ScalarMult W k).1, (-(c.ScalarMult W k).2) % P)
      = c.ScalarBaseMult j
  edSub : c.isEd25519 = true → ∀ W k j,
    c.Subtract (c.Add (c.ScalarMult W k) (c.ScalarBaseMult j))
        (c.ScalarMult W k)
      = c.ScalarBaseMult j
  smComm : ∀ k j,
    c.ScalarMult (c.ScalarBaseMult k) j = c.ScalarMult (c.ScalarBaseMult j) k
  onAdd : ∀ W k j,
    c.IsOnCurve (c.Add (c.ScalarMult W k) (c.ScalarBaseMult j)) = true

/-! ### A concrete instantiation used by witnesses and counterexamples

The test curve realises the interface over the additive group of integers:
a point carries its group element in the second coordinate (so that the
Weierstrass coordinate negation `(x, −y mod P)` with `P = 0` is genuine
negation), scalars act by multiplication through their big-endian value, and
every produced point is diagonal. -/

/-- Test curve over the integers (Weierstrass-style: negation of the second
coordinate, `isEd25519 = false`, `P = 0` so that `Int.emod` is the identity). -/
def toyCurve : CurveImpl :=
  { Add := fun A B => (A.1 + B.2, A.2 + B.2)
    ScalarBaseMult := fun k => ((beNat k : Int), (beNat k : Int))
    ScalarMult := fun A k => ((beNat k : Int) * A.2, (beNat k : Int) * A.2)
    IsOnCurve := fun _ => true
    Subtract := fun A B => (A.1 - B.2, A.2 - B.2)
    isEd25519 := false
    P := 0 }

/-- The same test curve flagged as Edwards, so that the `Subtract` branch of
the protocol is exercised. -/
def toyCurveEd : CurveImpl := { toyCurve with isEd25519 := true }

/-- A test curve library. -/
def toyLib : CurveLib :=
  { p521 := toyCurve, p256 := toyCurve, p384 := toyCurve, siec := toyCurve,
    ed25519 := toyCurveEd }

/-- Deterministic test random streams and hash. -/
def toyRandA : Nat → List Nat := fun n => List.replicate n 3

/-- Second test random stream. -/
def toyRandB : Nat → List Nat := fun n => List.replicate n 5

/-- Test hash of output length 32. -/
def toySha : List Nat → List Nat := fun _ => List.replicate 32 0

/-- A throwaway session used as default by the extractors below. -/
def dummyPake : Pake :=
  { Role := 0, Uᵤ := 0, Uᵥ := 0, Vᵤ := 0, Vᵥ := 0,
    Xᵤ := none, Xᵥ := none, Yᵤ := none, Yᵥ := none,
    curve := toyCurve, P := 0, Pw := [],
    Vpwᵤ := none, Vpwᵥ := none, Upwᵤ := none, Upwᵥ := none,
    Aα := [], Aαᵤ := none, Aαᵥ := none, Zᵤ := none, Zᵥ := none, K := none }

/-- Extract the session of a successful `InitCurve`. -/
def getOk (e : Except PakeError Pake) : Pake :=
  match e with
  | .ok p => p
  | .error _ => dummyPake

/-- Extract the session of a successful `Update`. -/
def getOkU (r : UpdateResult) : Pake :=
  match r with
  | .ok p => p
  | _ => dummyPake

/-- Concrete honest exchange on the test library, curve name "p256",
password `[1, 2, 3]`: the initiator session. -/
def exA0 : Pake := getOk (InitCurve toyLib toyRandA [1, 2, 3] 0 "p256")

/-- The responder session after `InitCurve`. -/
def exB0 : Pake := getOk (InitCurve toyLib toyRandB [1, 2, 3] 1 "p256")

/-- The responder after processing the initiator's message. -/
def exB1 : Pake :=
  getOkU (exB0.Update (.decoded (unmarshalWire exA0.Bytes)) toyRandB toySha)

/-- The initiator after processing the responder's message. -/
def exA1 : Pake :=
  getOkU (exA0.Update (.decoded (unmarshalWire exB1.Bytes)) toyRandA toySha)

/-- A session initialised with role 2 (any role other than 1). -/
def exRole2 : Pake := getOk (InitCurve toyLib toyRandA [1, 2, 3] 2 "p256")

/-- A session initialised on the "siec" registry entry. -/
def exSiec : Pake := getOk (InitCurve toyLib toyRandA [9] 0 "siec")

/-- First peer message delivered to the initiator (carries Y = (5,5)). -/
def c3w1 : Wire := { Role := 1, Xᵤ := none, Xᵥ := none, Yᵤ := some 5, Yᵥ := some 5 }

/-- Second peer message delivered to the same initiator (carries Y = (6,6)). -/
def c3w2 : Wire := { Role := 1, Xᵤ := none, Xᵥ := none, Yᵤ := some 6, Yᵥ := some 6 }

/-- The initiator after its first `Update`: the session key is derived. -/
def c3A1 : Pake := getOkU (exA0.Update (.decoded c3w1) toyRandA toySha)

/-- The same initiator after a second valid `Update`. -/
def c3A2 : Pake := getOkU (c3A1.Update (.decoded c3w2) toyRandA toySha)

/-- A responder session fresh out of `InitCurve`. -/
def c5B : Pake := getOk (InitCurve toyLib toyRandB [1, 2, 3] 1 "p256")

/-- A decoded message that omits every point. -/
def c5w : Wire := { Role := 0, Xᵤ := none, Xᵥ := none, Yᵤ := none, Yᵥ := none }

/-- A decoded responder-role message that omits every point. -/
def c5w2 : Wire := { Role := 1, Xᵤ := none, Xᵥ := none, Yᵤ := none, Yᵥ := none }

/-- A small handcrafted responder state used to witness the Z-formula. -/
def c2p : Pake :=
  { Role := 1, Uᵤ := 2, Uᵥ := 3, Vᵤ := 4, Vᵥ := 5,
    Xᵤ := none, Xᵥ := none, Yᵤ := none, Yᵥ := none,
    curve := toyCurve, P := 7, Pw := [2],
    Vpwᵤ := none, Vpwᵥ := none, Upwᵤ := none, Upwᵥ := none,
    Aα := [], Aαᵤ := none, Aαᵥ := none, Zᵤ := none, Zᵥ := none, K := none }

/-- A decoded message carrying a point for the responder. -/
def c2w : Wire := { Role := 0, Xᵤ := some 8, Xᵥ := some 9, Yᵤ := none, Yᵥ := none }

/-- A small handcrafted initiator state that has already derived a key. -/
def c3p : Pake :=
  { Role := 0, Uᵤ := 1, Uᵥ := 1, Vᵤ := 1, Vᵥ := 1,
    Xᵤ := some 10, Xᵥ := some 11, Yᵤ := some 5, Yᵥ := some 5,
    curve := toyCurve, P := 0, Pw := [2],
    Vpwᵤ := some 4, Vpwᵥ := some 4, Upwᵤ := some 4, Upwᵥ := some 4,
    Aα := [3], Aαᵤ := some 3, Aαᵥ := some 3, Zᵤ := some 8, Zᵥ := some 8,
    K := some [9] }

/-! ### Helper lemmas -/

/-- The random buffer handed to the protocol always has the allocated length. -/
theorem fillRand_length (rand : Nat → List Nat) (n : Nat) :
    (fillRand rand n).length = n := by
  simp [fillRand]

/-- Decoding a marshalled session recovers exactly the fields Update reads:
the role and the four optional point coordinates. -/
theorem unmarshalWire_Bytes (p : Pake) :
    unmarshalWire p.Bytes =
      { Role := p.Role, Xᵤ := p.Xᵤ, Xᵥ := p.Xᵥ, Yᵤ := p.Yᵤ, Yᵥ := p.Yᵥ } := by
  obtain ⟨R, uu, uv, vu, vv, xu, xv, yu, yv, c, P, pw,
    vp1, vp2, up1, up2, aα, ag1, ag2, z1, z2, K⟩ := p
  cases xu <;> cases xv <;> cases yu <;> cases yv <;> rfl

/-! ### Claim theorems -/

/-- C7: a message that decodes with the same role as the receiving session
makes Update fail with the role-collision error, and the failed call leaves
the session unchanged. -/
theorem C7_role_collision (p : Pake) (q : Wire) (rand : Nat → List Nat)
    (sha : List Nat → List Nat) (h : q.Role = p.Role) :
    p.Update (.decoded q) rand sha = .err .roleCollision p := by
  simp [Pake.Update, h]

/-- Witness for C7 at a concrete initiator session and same-role message. -/
theorem C7_role_collision_witness :
    c5w.Role = exA0.Role
      ∧ exA0.Update (.decoded c5w) toyRandA toySha = .err .roleCollision exA0 :=
  ⟨rfl, C7_role_collision exA0 c5w toyRandA toySha rfl⟩

/-- C8: SessionKey returns the derived 32-byte key when one exists and the
no-session-key error before that; but on a nil session the code panics while
dereferencing p.K (after having stored the not-initialized error), instead of
returning the error, as its own test observes. -/
theorem C8_sessionKey_eval :
    SessionKey none = .crash
      ∧ SessionKey (some exA0) = .err .noSessionKey
      ∧ SessionKey (some exB1) = .ok (List.replicate 32 0)
      ∧ (List.replicate 32 0).length = 32 :=
  ⟨rfl, rfl, rfl, by simp⟩

/-- C10: InitCurve treats every role other than 1 as the initiator (role 0,
with the outgoing X computed), and role 1 alone yields the responder with no
X. -/
theorem C10_role_normalisation :
    (∀ (lib : CurveLib) (rand : Nat → List Nat) (pw : List Nat) (role : Int)
        (name : String) (p : Pake), role ≠ 1 →
        InitCurve lib rand pw role name = .ok p →
        p.Role = 0 ∧ p.Xᵤ.isSome ∧ p.Xᵥ.isSome)
    ∧ (∀ (lib : CurveLib) (rand : Nat → List Nat) (pw : List Nat)
        (name : String) (p : Pake),
        InitCurve lib rand pw 1 name = .ok p →
        p.Role = 1 ∧ p.Xᵤ = none ∧ p.Xᵥ = none) := by
  constructor
  · intro lib rand pw role name p hrole h
    rcases hreg : initCurve lib name with e | t
    · rw [InitCurve, hreg] at h; exact absurd h (by simp)
    · obtain ⟨c, P, ux, uy, vx, vy⟩ := t
      rw [InitCurve, hreg] at h
      simp only [if_neg hrole] at h
      cases h
      exact ⟨rfl, rfl, rfl⟩
  · intro lib rand pw name p h
    rcases hreg : initCurve lib name with e | t
    · rw [InitCurve, hreg] at h; exact absurd h (by simp)
    · obtain ⟨c, P, ux, uy, vx, vy⟩ := t
      rw [InitCurve, hreg] at h
      simp only [if_pos rfl] at h
      cases h
      exact ⟨rfl, rfl, rfl⟩

/-- Witness for C10 at role 2 on a concrete library. -/
theorem C10_role_normalisation_witness :
    (2 : Int) ≠ 1
      ∧ (exRole2.Role = 0 ∧ exRole2.Xᵤ.isSome ∧ exRole2.Xᵥ.isSome) :=
  ⟨by decide,
   C10_role_normalisation.1 toyLib toyRandA [1, 2, 3] 2 "p256" exRole2
     (by decide) rfl⟩

/-- C4 counterexample: on the short-Weierstrass registry entry "p256" the
initiator samples a 32-byte ephemeral secret, not an 8-byte one. -/
theorem C4_counterexample :
    InitCurve toyLib toyRandA [1, 2, 3] 0 "p256" = .ok exA0
      ∧ exA0.Aα.length = 32 ∧ exA0.Aα.length ≠ 8 :=
  ⟨rfl, by decide, by decide⟩

/-- C4 amended: the ephemeral secret α is sampled as 32 random bytes for
every curve, both by the initiator in InitCurve and by the responder in
Update. -/
theorem C4_alpha_length :
    (∀ (lib : CurveLib) (rand : Nat → List Nat) (pw : List Nat) (role : Int)
        (name : String) (p : Pake), role ≠ 1 →
        InitCurve lib rand pw role name = .ok p → p.Aα.length = 32)
    ∧ (∀ (p : Pake) (q : Wire) (rand : Nat → List Nat)
        (sha : List Nat → List Nat) (p2 : Pake), p.Role = 1 →
        p.Update (.decoded q) rand sha = .ok p2 → p2.Aα.length = 32) := by
  constructor
  · intro lib rand pw role name p hrole h
    rcases hreg : initCurve lib name with e | t
    · rw [InitCurve, hreg] at h; exact absurd h (by simp)
    · obtain ⟨c, P, ux, uy, vx, vy⟩ := t
      rw [InitCurve, hreg] at h
      simp only [if_neg hrole] at h
      cases h
      exact fillRand_length rand 32
  · intro p q rand sha p2 hrole h
    simp only [Pake.Update, hrole, if_true] at h
    split at h
    · exact absurd h (by simp)
    · split at h
      · split at h
        · exact absurd h (by simp)
        · cases h
          exact fillRand_length rand 32
      · exact absurd h (by simp)

/-- Witness for C4 at a concrete initiator on the "siec" entry. -/
theorem C4_alpha_length_witness :
    InitCurve toyLib toyRandA [9] 0 "siec" = .ok exSiec
      ∧ exSiec.Aα.length = 32 :=
  ⟨rfl, C4_alpha_length.1 toyLib toyRandA [9] 0 "siec" exSiec (by decide) rfl⟩

/-- C5 counterexample: a responder fresh out of InitCurve, handed a message
that decodes but omits X, does not return success with K unchanged — the
on-curve check dereferences the missing (nil) coordinates and the call
panics. -/
theorem C5_counterexample :
    InitCurve toyLib toyRandB [1, 2, 3] 1 "p256" = .ok c5B
      ∧ c5B.Update (.decoded c5w) toyRandB toySha = .crash
      ∧ HaveSessionKey (some c5B) = false :=
  ⟨rfl, rfl, rfl⟩

/-- C5 amended: a decoded message that omits the required peer point (X for
the responder, Y for the initiator) makes Update dereference a nil *big.Int
in the on-curve check, a runtime panic; no session key is derived. -/
theorem C5_missing_point_crash :
    (∀ (p : Pake) (q : Wire) (rand : Nat → List Nat)
        (sha : List Nat → List Nat), p.Role = 1 → p.Role ≠ q.Role →
        (q.Xᵤ = none ∨ q.Xᵥ = none) →
        p.Update (.decoded q) rand sha = .crash)
    ∧ (∀ (p : Pake) (q : Wire) (rand : Nat → List Nat)
        (sha : List Nat → List Nat), p.Role ≠ 1 → p.Role ≠ q.Role →
        (q.Yᵤ = none ∨ q.Yᵥ = none) →
        p.Update (.decoded q) rand sha = .crash) := by
  constructor
  · intro p q rand sha hrole hne hmiss
    have hne2 : ¬ ((1 : Int) = q.Role) := by rw [hrole] at hne; exact hne
    simp only [Pake.Update, hrole, if_true, if_neg hne2]
    rcases hx : q.Xᵤ with _ | xu <;> rcases hy : q.Xᵥ with _ | xv
    all_goals first
    | rfl
    | (rcases hmiss with h | h <;> simp_all)
  · intro p q rand sha hrole hne hmiss
    simp only [Pake.Update, if_neg hne, if_neg hrole]
    rcases hx : q.Yᵤ with _ | yu <;> rcases hy : q.Yᵥ with _ | yv
    all_goals first
    | rfl
    | (rcases hmiss with h | h <;> simp_all)

/-- Witness for C5 amended: the initiator side at a concrete session. -/
theorem C5_missing_point_crash_witness :
    exA0.Update (.decoded c5w2) toyRandA toySha = .crash :=
  C5_missing_point_crash.2 exA0 c5w2 toyRandA toySha (by decide) (by decide)
    (Or.inl rfl)

/-- C3 counterexample: an initiator that has already derived K, delivered a
second valid peer message, returns success but overwrites its session fields
(here Y changes from 5 to 6), so the call is not a no-op. -/
theorem C3_counterexample :
    HaveSessionKey (some c3A1) = true
      ∧ c3A1.Update (.decoded c3w2) toyRandA toySha = .ok c3A2
      ∧ c3A1.Yᵤ = some 5 ∧ c3A2.Yᵤ = some 6 :=
  ⟨rfl, rfl, rfl, rfl⟩

/-- C3 amended: Update keeps no protocol phase: any valid peer message —
first or repeated, with K already derived or not — is fully reprocessed:
the initiator overwrites Y and re-derives Z and K from the message; the
responder overwrites X, resamples α and re-derives Y, Z and K. -/
theorem C3_no_phase_tracking :
    (∀ (p : Pake) (q : Wire) (rand : Nat → List Nat)
        (sha : List Nat → List Nat) (yu yv vpwu vpwv xu xv : Int),
        p.Role ≠ 1 → p.Role ≠ q.Role →
        q.Yᵤ = some yu → q.Yᵥ = some yv →
        p.curve.IsOnCurve (yu, yv) = true →
        p.Vpwᵤ = some vpwu → p.Vpwᵥ = some vpwv →
        p.Xᵤ = some xu → p.Xᵥ = some xv →
        ∃ p2 z1 z2, p.Update (.decoded q) rand sha = .ok p2
          ∧ p2.Yᵤ = some yu ∧ p2.Yᵥ = some yv
          ∧ p2.Zᵤ = some z1 ∧ p2.Zᵥ = some z2
          ∧ p2.K = some (sha (hashInput p.Pw xu xv yu yv z1 z2)))
    ∧ (∀ (p : Pake) (q : Wire) (rand : Nat → List Nat)
        (sha : List Nat → List Nat) (xu xv : Int),
        p.Role = 1 → p.Role ≠ q.Role →
        q.Xᵤ = some xu → q.Xᵥ = some xv →
        p.curve.IsOnCurve (xu, xv) = true →
        ∃ p2 y1 y2 z1 z2, p.Update (.decoded q) rand sha = .ok p2
          ∧ p2.Xᵤ = some xu ∧ p2.Xᵥ = some xv
          ∧ p2.Aα = fillRand rand 32
          ∧ p2.Yᵤ = some y1 ∧ p2.Yᵥ = some y2
          ∧ p2.Zᵤ = some z1 ∧ p2.Zᵥ = some z2
          ∧ p2.K = some (sha (hashInput p.Pw xu xv y1 y2 z1 z2))) := by
  constructor
  · intro p q rand sha yu yv vpwu vpwv xu xv hrole hne hyu hyv hon hv1 hv2
      hx1 hx2
    simp only [Pake.Update, if_neg hne, if_neg hrole, hyu, hyv, hv1, hv2,
      hx1, hx2, hon, not_true, if_false]
    exact ⟨_, _, _, rfl, rfl, rfl, rfl, rfl, rfl⟩
  · intro p q rand sha xu xv hrole hne hx1 hx2 hon
    have hne2 : ¬ ((1 : Int) = q.Role) := by rw [hrole] at hne; exact hne
    simp only [Pake.Update, hrole, if_true, if_neg hne2, hx1, hx2, hon,
      not_true, if_false]
    exact ⟨_, _, _, _, _, rfl, rfl, rfl, rfl, rfl, rfl, rfl, rfl, rfl⟩

/-- Witness for C3 amended at a concrete already-keyed initiator. -/
theorem C3_no_phase_tracking_witness :
    ∃ p2 z1 z2, c3p.Update (.decoded c3w2) toyRandA toySha = .ok p2
      ∧ p2.Yᵤ = some 6 ∧ p2.Yᵥ = some 6
      ∧ p2.Zᵤ = some z1 ∧ p2.Zᵥ = some z2
      ∧ p2.K = some (toySha (hashInput c3p.Pw 10 11 6 6 z1 z2)) :=
  C3_no_phase_tracking.1 c3p c3w2 toyRandA toySha 6 6 4 4 10 11
    (by decide) (by decide) rfl rfl rfl rfl rfl rfl rfl

/-- C6 counterexample: the encoded output of Bytes() is not exactly the nine
public fields — it contains an entry for every exported field, the private
ones with value null. -/
theorem C6_counterexample :
    InitCurve toyLib toyRandA [1, 2, 3] 0 "p256" = .ok exA0
      ∧ exA0.Bytes.length = 21
      ∧ exA0.Bytes.lookup "Pw" = some .null
      ∧ exA0.Bytes.lookup "Aα" = some .null
      ∧ exA0.Bytes.lookup "Upwᵤ" = some .null
      ∧ exA0.Bytes.lookup "Vpwᵤ" = some .null
      ∧ exA0.Bytes.lookup "Zᵤ" = some .null
      ∧ exA0.Bytes.lookup "K" = some .null :=
  ⟨rfl, rfl, rfl, rfl, rfl, rfl, rfl, rfl⟩

/-- C6 amended: Bytes() encodes the nine public fields together with a null
entry for every other exported field; the private values are erased, so the
output is a function of the public view alone. -/
theorem C6_bytes_private_null :
    (∀ p : Pake,
        p.Bytes.lookup "P" = some .null ∧ p.Bytes.lookup "Pw" = some .null
          ∧ p.Bytes.lookup "Vpwᵤ" = some .null
          ∧ p.Bytes.lookup "Vpwᵥ" = some .null
          ∧ p.Bytes.lookup "Upwᵤ" = some .null
          ∧ p.Bytes.lookup "Upwᵥ" = some .null
          ∧ p.Bytes.lookup "Aα" = some .null
          ∧ p.Bytes.lookup "Aαᵤ" = some .null
          ∧ p.Bytes.lookup "Aαᵥ" = some .null
          ∧ p.Bytes.lookup "Zᵤ" = some .null
          ∧ p.Bytes.lookup "Zᵥ" = some .null
          ∧ p.Bytes.lookup "K" = some .null)
    ∧ (∀ p q : Pake, p.Role = q.Role → p.Uᵤ = q.Uᵤ → p.Uᵥ = q.Uᵥ →
        p.Vᵤ = q.Vᵤ → p.Vᵥ = q.Vᵥ → p.Xᵤ = q.Xᵤ → p.Xᵥ = q.Xᵥ →
        p.Yᵤ = q.Yᵤ → p.Yᵥ = q.Yᵥ → p.Bytes = q.Bytes) := by
  constructor
  · intro p
    exact ⟨rfl, rfl, rfl, rfl, rfl, rfl, rfl, rfl, rfl, rfl, rfl, rfl⟩
  · intro p q h1 h2 h3 h4 h5 h6 h7 h8 h9
    simp [Pake.Bytes, h1, h2, h3, h4, h5, h6, h7, h8, h9]

/-- Witness for C6 amended: changing only private fields of a concrete
session leaves the encoded output identical. -/
theorem C6_bytes_private_null_witness :
    exA0.Bytes = ({ exA0 with K := some [9], Pw := [7, 7], Aα := [1], Zᵤ := some 13 } : Pake).Bytes :=
  C6_bytes_private_null.2 exA0
    { exA0 with K := some [9], Pw := [7, 7], Aα := [1], Zᵤ := some 13 }
    rfl rfl rfl rfl rfl rfl rfl rfl rfl

/-- C2: Update computes the shared point Z as α times the peer point minus
the own mask, with the curve-specific subtraction: on short-Weierstrass
curves the mask's y-coordinate is negated and reduced into the canonical
range [0, P) before being passed to Add, and on ed25519 the dedicated
Subtract is used; symmetrically on both roles. -/
theorem C2_shared_point_formula :
    (∀ (p : Pake) (q : Wire) (rand : Nat → List Nat)
        (sha : List Nat → List Nat) (xu xv : Int),
        p.Role = 1 → p.Role ≠ q.Role →
        q.Xᵤ = some xu → q.Xᵥ = some xv →
        p.curve.IsOnCurve (xu, xv) = true → p.curve.isEd25519 = false →
        ∃ p2, p.Update (.decoded q) rand sha = .ok p2
          ∧ p2.Zᵤ = some (p.curve.ScalarMult
              (p.curve.Add (xu, xv)
                ((p.curve.ScalarMult (p.Uᵤ, p.Uᵥ) p.Pw).1,
                 (-(p.curve.ScalarMult (p.Uᵤ, p.Uᵥ) p.Pw).2) % p.P))
              (fillRand rand 32)).1
          ∧ p2.Zᵥ = some (p.curve.ScalarMult
              (p.curve.Add (xu, xv)
                ((p.curve.ScalarMult (p.Uᵤ, p.Uᵥ) p.Pw).1,
                 (-(p.curve.ScalarMult (p.Uᵤ, p.Uᵥ) p.Pw).2) % p.P))
              (fillRand rand 32)).2
          ∧ (0 < p.P →
              0 ≤ (-(p.curve.ScalarMult (p.Uᵤ, p.Uᵥ) p.Pw).2) % p.P
              ∧ (-(p.curve.ScalarMult (p.Uᵤ, p.Uᵥ) p.Pw).2) % p.P < p.P))
    ∧ (∀ (p : Pake) (q : Wire) (rand : Nat → List Nat)
        (sha : List Nat → List Nat) (xu xv : Int),
        p.Role = 1 → p.Role ≠ q.Role →
        q.Xᵤ = some xu → q.Xᵥ = some xv →
        p.curve.IsOnCurve (xu, xv) = true → p.curve.isEd25519 = true →
        ∃ p2, p.Update (.decoded q) rand sha = .ok p2
          ∧ p2.Zᵤ = some (p.curve.ScalarMult
              (p.curve.Subtract (xu, xv) (p.curve.ScalarMult (p.Uᵤ, p.Uᵥ) p.Pw))
              (fillRand rand 32)).1
          ∧ p2.Zᵥ = some (p.curve.ScalarMult
              (p.curve.Subtract (xu, xv) (p.curve.ScalarMult (p.Uᵤ, p.Uᵥ) p.Pw))
              (fillRand rand 32)).2)
    ∧ (∀ (p : Pake) (q : Wire) (rand : Nat → List Nat)
        (sha : List Nat → List Nat) (yu yv vpwu vpwv xu xv : Int),
        p.Role ≠ 1 → p.Role ≠ q.Role →
        q.Yᵤ = some yu → q.Yᵥ = some yv →
        p.curve.IsOnCurve (yu, yv) = true →
        p.Vpwᵤ = some vpwu → p.Vpwᵥ = some vpwv →
        p.Xᵤ = some xu → p.Xᵥ = some xv → p.curve.isEd25519 = false →
        ∃ p2, p.Update (.decoded q) rand sha = .ok p2
          ∧ p2.Zᵤ = some (p.curve.ScalarMult
              (p.curve.Add (yu, yv) (vpwu, (-vpwv) % p.P)) p.Aα).1
          ∧ p2.Zᵥ = some (p.curve.ScalarMult
              (p.curve.Add (yu, yv) (vpwu, (-vpwv) % p.P)) p.Aα).2
          ∧ (0 < p.P → 0 ≤ (-vpwv) % p.P ∧ (-vpwv) % p.P < p.P))
    ∧ (∀ (p : Pake) (q : Wire) (rand : Nat → List Nat)
        (sha : List Nat → List Nat) (yu yv vpwu vpwv xu xv : Int),
        p.Role ≠ 1 → p.Role ≠ q.Role →
        q.Yᵤ = some yu → q.Yᵥ = some yv →
        p.curve.IsOnCurve (yu, yv) = true →
        p.Vpwᵤ = some vpwu → p.Vpwᵥ = some vpwv →
        p.Xᵤ = some xu → p.Xᵥ = some xv → p.curve.isEd25519 = true →
        ∃ p2, p.Update (.decoded q) rand sha = .ok p2
          ∧ p2.Zᵤ = some (p.curve.ScalarMult
              (p.curve.Subtract (yu, yv) (vpwu, vpwv)) p.Aα).1
          ∧ p2.Zᵥ = some (p.curve.ScalarMult
              (p.curve.Subtract (yu, yv) (vpwu, vpwv)) p.Aα).2) := by
  refine ⟨?_, ?_, ?_, ?_⟩
  · intro p q rand sha xu xv hrole hne hx1 hx2 hon hed
    have hne2 : ¬ ((1 : Int) = q.Role) := by rw [hrole] at hne; exact hne
    simp only [Pake.Update, hrole, if_true, if_neg hne2, hx1, hx2, hon, hed,
      not_true, if_false, Bool.false_eq_true]
    exact ⟨_, rfl, rfl, rfl,
      fun hP => ⟨Int.emod_nonneg _ (by omega), Int.emod_lt_of_pos _ hP⟩⟩
  · intro p q rand sha xu xv hrole hne hx1 hx2 hon hed
    have hne2 : ¬ ((1 : Int) = q.Role) := by rw [hrole] at hne; exact hne
    simp only [Pake.Update, hrole, if_true, if_neg hne2, hx1, hx2, hon, hed,
      not_true, if_false]
    exact ⟨_, rfl, rfl, rfl⟩
  · intro p q rand sha yu yv vpwu vpwv xu xv hrole hne hy1 hy2 hon hv1 hv2
      hx1 hx2 hed
    simp only [Pake.Update, if_neg hne, if_neg hrole, hy1, hy2, hon, hv1, hv2,
      hx1, hx2, hed, not_true, if_false, Bool.false_eq_true]
    exact ⟨_, rfl, rfl, rfl,
      fun hP => ⟨Int.emod_nonneg _ (by omega), Int.emod_lt_of_pos _ hP⟩⟩
  · intro p q rand sha yu yv vpwu vpwv xu xv hrole hne hy1 hy2 hon hv1 hv2
      hx1 hx2 hed
    simp only [Pake.Update, if_neg hne, if_neg hrole, hy1, hy2, hon, hv1, hv2,
      hx1, hx2, hed, not_true, if_false]
    exact ⟨_, rfl, rfl, rfl⟩

/-- Witness for C2: the responder Weierstrass branch at a concrete session. -/
theorem C2_shared_point_formula_witness :
    ∃ p2, c2p.Update (.decoded c2w) toyRandA toySha = .ok p2
      ∧ p2.Zᵤ = some (c2p.curve.ScalarMult
          (c2p.curve.Add (8, 9)
            ((c2p.curve.ScalarMult (c2p.Uᵤ, c2p.Uᵥ) c2p.Pw).1,
             (-(c2p.curve.ScalarMult (c2p.Uᵤ, c2p.Uᵥ) c2p.Pw).2) % c2p.P))
          (fillRand toyRandA 32)).1
      ∧ p2.Zᵥ = some (c2p.curve.ScalarMult
          (c2p.curve.Add (8, 9)
            ((c2p.curve.ScalarMult (c2p.Uᵤ, c2p.Uᵥ) c2p.Pw).1,
             (-(c2p.curve.ScalarMult (c2p.Uᵤ, c2p.Uᵥ) c2p.Pw).2) % c2p.P))
          (fillRand toyRandA 32)).2
      ∧ (0 < c2p.P →
          0 ≤ (-(c2p.curve.ScalarMult (c2p.Uᵤ, c2p.Uᵥ) c2p.Pw).2) % c2p.P
          ∧ (-(c2p.curve.ScalarMult (c2p.Uᵤ, c2p.Uᵥ) c2p.Pw).2) % c2p.P < c2p.P) :=
  C2_shared_point_formula.1 c2p c2w toyRandA toySha 8 9 rfl (by decide)
    rfl rfl rfl rfl

/-- The test curve satisfies the protocol contract (with field prime 0, for
which reduction is the identity). -/
theorem toyCurveGood : CurveGood toyCurve 0 := by
  constructor
  · intro _ W k j
    simp [toyCurve, Int.emod_zero, Prod.ext_iff]
  · intro h
    exact absurd h (by simp [toyCurve])
  · intro k j
    simp [toyCurve, Prod.ext_iff]
    ring
  · intro W k j
    rfl

/-- C1: for a session pair initialised with the same password and curve and
exchanged honestly (the sampled ephemerals being parameters of the runs), the
two session keys agree and have length exactly 32 — provided the curve
implementation satisfies the group contract `CurveGood` and the hash is
32 bytes long, as SHA-256 is. -/
theorem C1_session_key_agreement (lib : CurveLib) (name : String)
    (randA randB : Nat → List Nat) (sha : List Nat → List Nat)
    (pw : List Nat) (A B0 B A2 : Pake)
    (hname : name ∈ AvailableCurves)
    (hsha : ∀ s, (sha s).length = 32)
    (hA : InitCurve lib randA pw 0 name = .ok A)
    (hB0 : InitCurve lib randB pw 1 name = .ok B0)
    (hgood : CurveGood A.curve A.P)
    (hB : B0.Update (.decoded (unmarshalWire A.Bytes)) randB sha = .ok B)
    (hA2 : A.Update (.decoded (unmarshalWire B.Bytes)) randA sha = .ok A2) :
    ∃ k, SessionKey (some A2) = .ok k ∧ SessionKey (some B) = .ok k
      ∧ k.length = 32 := by
  rcases hreg : initCurve lib name with e | ⟨c, P, ux, uy, vx, vy⟩
  · rw [InitCurve, hreg] at hA; exact absurd hA (by simp)
  rw [InitCurve, hreg] at hA hB0
  simp only [if_neg (by decide : ¬ ((0 : Int) = 1))] at hA
  simp only [eq_self_iff_true, if_true] at hB0
  cases hA
  cases hB0
  have hg : CurveGood c P := hgood
  rw [unmarshalWire_Bytes] at hB
  simp only [Pake.Update, if_neg (by decide : ¬ ((1 : Int) = 0)),
    eq_self_iff_true, if_true] at hB
  set αA := fillRand randA 32 with hh1
  set βB := fillRand randB 32 with hh2
  set upw := c.ScalarMult (ux, uy) pw with hh3
  set vpw := c.ScalarMult (vx, vy) pw with hh4
  set aG := c.ScalarBaseMult αA with hh5
  set bG := c.ScalarBaseMult βB with hh6
  have hon1 : c.IsOnCurve ((c.Add upw aG).1, (c.Add upw aG).2) = true :=
    hg.onAdd (ux, uy) pw αA
  have hon2 : c.IsOnCurve ((c.Add vpw bG).1, (c.Add vpw bG).2) = true :=
    hg.onAdd (vx, vy) pw βB
  have hcomm : c.ScalarMult bG αA = c.ScalarMult aG βB := hg.smComm βB αA
  cases hEd : c.isEd25519
  · have hsub1 : c.Add ((c.Add upw aG).1, (c.Add upw aG).2)
        (upw.1, -upw.2 % P) = aG := hg.addSub hEd (ux, uy) pw αA
    have hsub2 : c.Add ((c.Add vpw bG).1, (c.Add vpw bG).2)
        (vpw.1, -vpw.2 % P) = bG := hg.addSub hEd (vx, vy) pw βB
    simp only [hEd, Bool.false_eq_true, if_false, hon1, not_true,
      eq_self_iff_true] at hB
    rw [hsub1] at hB
    cases hB
    rw [unmarshalWire_Bytes] at hA2
    simp only [Pake.Update, if_neg (by decide : ¬ ((0 : Int) = 1)), hEd,
      Bool.false_eq_true, if_false, hon2, not_true, eq_self_iff_true] at hA2
    rw [hsub2, hcomm] at hA2
    cases hA2
    exact ⟨_, rfl, rfl, hsha _⟩
  · have hsub1 : c.Subtract ((c.Add upw aG).1, (c.Add upw aG).2) upw = aG :=
      hg.edSub hEd (ux, uy) pw αA
    have hsub2 : c.Subtract ((c.Add vpw bG).1, (c.Add vpw bG).2)
        (vpw.1, vpw.2) = bG := hg.edSub hEd (vx, vy) pw βB
    simp only [hEd, if_true, hon1, not_true, eq_self_iff_true] at hB
    rw [hsub1] at hB
    cases hB
    rw [unmarshalWire_Bytes] at hA2
    simp only [Pake.Update, if_neg (by decide : ¬ ((0 : Int) = 1)), hEd,
      if_true, hon2, not_true, eq_self_iff_true] at hA2
    rw [hsub2, hcomm] at hA2
    cases hA2
    exact ⟨_, rfl, rfl, hsha _⟩

/-- Witness for C1: the concrete honest exchange on the test library agrees
on a 32-byte key. -/
theorem C1_session_key_agreement_witness :
    ∃ k, SessionKey (some exA1) = .ok k ∧ SessionKey (some exB1) = .ok k
      ∧ k.length = 32 :=
  C1_session_key_agreement toyLib "p256" toyRandA toyRandB toySha [1, 2, 3]
    exA0 exB0 exB1 exA1 (by decide) (fun s => by simp [toySha])
    rfl rfl toyCurveGood rfl rfl

set_option maxRecDepth 20000 in
/-- C9: InitCurve succeeds exactly on the five names of AvailableCurves()
(given a curve library that accepts the registry generators, which the
concrete libraries do — see the arithmetic facts below) and fails with the
unknown-curve error on every other name; the hard-coded generators of all
five entries satisfy the membership equations of their curves (modelled from
the external libraries: the NIST short-Weierstrass equations, the SIEC255
equation y² = x³ + 19, and edwards25519 point decompression), so InitCurve
never fails with the bad-generator error on a recognised name. -/
theorem C9_registry :
    (∀ (lib : CurveLib) (name : String), name ∉ AvailableCurves →
        ∀ (rand : Nat → List Nat) (pw : List Nat) (role : Int),
          InitCurve lib rand pw role name = .error .unknownCurve)
    ∧ (∀ lib : CurveLib, registryAccepts lib →
        ∀ name ∈ AvailableCurves, ∀ (rand : Nat → List Nat) (pw : List Nat)
          (role : Int), ∃ p, InitCurve lib rand pw role name = .ok p)
    ∧ weierstrassOnCurve p256P p256B wUx.toNat p256Uy.toNat
    ∧ weierstrassOnCurve p256P p256B wVx.toNat p256Vy.toNat
    ∧ weierstrassOnCurve p384P p384B wUx.toNat p384Uy.toNat
    ∧ weierstrassOnCurve p384P p384B wVx.toNat p384Vy.toNat
    ∧ weierstrassOnCurve p521P p521B wUx.toNat p521Uy.toNat
    ∧ weierstrassOnCurve p521P p521B wVx.toNat p521Vy.toNat
    ∧ siecOnCurve siecUx.toNat siecUy.toNat
    ∧ siecOnCurve wVx.toNat siecVy.toNat
    ∧ edPointValid edUx.toNat
    ∧ edPointValid edVx.toNat := by
  refine ⟨?_, ?_, by decide, by decide, by decide, by decide, by decide,
    by decide, by decide, by decide, by decide, by decide⟩
  · intro lib name hname rand pw role
    simp only [InitCurve, initCurve]
    split <;> first | rfl | simp_all [AvailableCurves]
  · intro lib hacc name hmem rand pw role
    obtain ⟨h1, h2, h3, h4, h5, h6, h7, h8, h9, h10⟩ := hacc
    simp only [AvailableCurves, List.mem_cons, List.not_mem_nil, or_false] at hmem
    rcases hmem with h | h | h | h | h <;> subst h <;> by_cases hrole : role = 1
    · exact ⟨_, by simp [InitCurve, initCurve, checkRegistryEntry, h1, h2, hrole]; rfl⟩
    · exact ⟨_, by simp [InitCurve, initCurve, checkRegistryEntry, h1, h2, hrole]; rfl⟩
    · exact ⟨_, by simp [InitCurve, initCurve, checkRegistryEntry, h3, h4, hrole]; rfl⟩
    · exact ⟨_, by simp [InitCurve, initCurve, checkRegistryEntry, h3, h4, hrole]; rfl⟩
    · exact ⟨_, by simp [InitCurve, initCurve, checkRegistryEntry, h5, h6, hrole]; rfl⟩
    · exact ⟨_, by simp [InitCurve, initCurve, checkRegistryEntry, h5, h6, hrole]; rfl⟩
    · exact ⟨_, by simp [InitCurve, initCurve, checkRegistryEntry, h7, h8, hrole]; rfl⟩
    · exact ⟨_, by simp [InitCurve, initCurve, checkRegistryEntry, h7, h8, hrole]; rfl⟩
    · exact ⟨_, by simp [InitCurve, initCurve, checkRegistryEntry, h9, h10, hrole]; rfl⟩
    · exact ⟨_, by simp [InitCurve, initCurve, checkRegistryEntry, h9, h10, hrole]; rfl⟩

/-- Witness for C9: a concrete accepting library, a recognised and an
unknown name. -/
theorem C9_registry_witness :
    (∃ p, InitCurve toyLib toyRandA [1] 0 "siec" = .ok p)
      ∧ InitCurve toyLib toyRandA [1] 0 "bogus" = .error .unknownCurve :=
  ⟨C9_registry.2.1 toyLib ⟨rfl, rfl, rfl, rfl, rfl, rfl, rfl, rfl, rfl, rfl⟩
      "siec" (by decide) toyRandA [1] 0,
    C9_registry.1 toyLib "bogus" (by decide) toyRandA [1] 0⟩
